import Mathlib

/-!
# Verification of the go-todo HTTP service (main.go)

A shallow embedding of the request handlers of `main.go`: the Mongo-backed
todo collection is a list of `todoModel` records, each handler is a function
from its decoded inputs (plus explicit parameters standing for the
nondeterministic parts: the fresh ObjectID, the current time, and possible
store failures) to an HTTP status, a response body and the resulting store
state, together with a flag recording whether any store operation was
performed.
-/

namespace GoTodo

/-- A hexadecimal digit as accepted by Go's hex.DecodeString
(digits, lowercase and uppercase letters a-f). -/
def isHexDigit (c : Char) : Bool :=
  if ('0' ≤ c ∧ c ≤ '9') ∨ ('a' ≤ c ∧ c ≤ 'f') ∨ ('A' ≤ c ∧ c ≤ 'F') then true else false

/-- Numeric value of a hex digit (0 on non-digits; only used after validity checks). -/
def hexDigitVal (c : Char) : Nat :=
  if '0' ≤ c ∧ c ≤ '9' then c.toNat - 48
  else if 'a' ≤ c ∧ c ≤ 'f' then c.toNat - 87
  else if 'A' ≤ c ∧ c ≤ 'F' then c.toNat - 55
  else 0

/-- A Mongo ObjectID, `primitive.ObjectID` = [12]byte, modelled as its list of bytes. -/
abbrev ObjectID := List Nat

/-- The zero ObjectID (`primitive.NilObjectID`), the value `bson:"_id,omitempty"`
omits, letting the store assign an identifier. -/
def zeroObjectID : ObjectID := List.replicate 12 0

/-- hex.DecodeString on an even-length string: pairs of hex digits to bytes. -/
def hexDecodeChars : List Char → List Nat
  | c1 :: c2 :: rest => (16 * hexDigitVal c1 + hexDigitVal c2) :: hexDecodeChars rest
  | _ => []

/-- `primitive.ObjectIDFromHex` after a successful validity check. -/
def objectIDFromHex (s : String) : ObjectID :=
  hexDecodeChars s.toList

/-- `primitive.IsValidObjectID`: ObjectIDFromHex succeeds iff the string is
24 hex characters (a hex-decodable string is ASCII, so byte length equals
character length). -/
def isValidObjectID (s : String) : Bool :=
  (s.length == 24) && s.toList.all isHexDigit

/-- Lowercase hex digit for a value below 16. -/
def hexDigitChar (n : Nat) : Char :=
  if n < 10 then Char.ofNat (48 + n) else Char.ofNat (87 + n)

/-- One byte as two lowercase hex digits (hex.EncodeToString per byte). -/
def hexEncodeByte (b : Nat) : List Char :=
  [hexDigitChar (b / 16 % 16), hexDigitChar (b % 16)]

/-- `ObjectID.Hex()`: the canonical 24-character lowercase hex rendering. -/
def objectIDHex (oid : ObjectID) : String :=
  String.mk (oid.map hexEncodeByte).flatten

/-- Go `unicode.IsSpace` restricted to Latin-1 (the range exercised here):
tab, newline, vertical tab, form feed, carriage return, space, NEL, NBSP. -/
def isSpaceChar (c : Char) : Bool :=
  c = ' ' || c = '\t' || c = '\n' || c = Char.ofNat 11 || c = Char.ofNat 12 ||
    c = '\r' || c = Char.ofNat 133 || c = Char.ofNat 160

/-- `strings.TrimSpace` on the character list: drop spaces from both ends. -/
def trimChars (l : List Char) : List Char :=
  (l.dropWhile isSpaceChar).rdropWhile isSpaceChar

/-- `strings.TrimSpace`. -/
def trimSpace (s : String) : String :=
  String.mk (trimChars s.toList)

/-- Wall-clock instants (`time.Time`), modelled abstractly as naturals. -/
abbrev GoTime := Nat

/-- `todoModel`: the storage (bson) representation. -/
structure todoModel where
  ID : ObjectID
  Title : String
  Completed : Bool
  CreateAt : GoTime
deriving DecidableEq, Repr

/-- `todo`: the wire (json) representation. -/
structure todo where
  ID : String
  Title : String
  Completed : Bool
  CreatedAt : GoTime
deriving DecidableEq, Repr

/-- The todo collection: a list of stored records. -/
abbrev Store := List todoModel

/-- The JSON payloads the handlers render (the renderer.M maps used in main.go). -/
inductive RespBody where
  /-- `{"message": m}` -/
  | msgOnly (message : String)
  /-- `{"message": m, "error": e}` -/
  | msgErr (message : String) (error : String)
  /-- `{"data": l}`; `none` is the nil slice, serialized as JSON null. -/
  | dataBody (data : Option (List todo))
  /-- `{"message": m, "Todo ID": i}` -/
  | msgId (message : String) (todoID : String)
deriving DecidableEq, Repr

/-- What a handler produces: HTTP status, rendered body, resulting store
state, and whether any store operation was attempted. -/
structure HandlerOut where
  status : Nat
  body : RespBody
  store : Store
  storeCalled : Bool
deriving DecidableEq, Repr

/-- `collection.DeleteOne` with filter `{_id: oid}`: removes the first
matching record, returning the new collection and DeletedCount (0 or 1). -/
def deleteOneById (oid : ObjectID) : Store → Store × Nat
  | [] => ([], 0)
  | t :: ts =>
    if t.ID = oid then (ts, 1)
    else
      let r := deleteOneById oid ts
      (t :: r.1, r.2)

/-- `collection.UpdateOne` with filter `{_id: oid}` and update
`{$set: {title: ttl, completed: cpl}}`: rewrites the two fields of the first
matching record; a no-op when nothing matches. -/
def updateOneById (oid : ObjectID) (ttl : String) (cpl : Bool) : Store → Store
  | [] => []
  | t :: ts =>
    if t.ID = oid then { t with Title := ttl, Completed := cpl } :: ts
    else t :: updateOneById oid ttl cpl ts

/-- The record-to-view mapping of fetchTodos (lines 104-109): identifier
rendered as hex, the other fields copied. -/
def toView (t : todoModel) : todo :=
  { ID := objectIDHex t.ID, Title := t.Title, Completed := t.Completed, CreatedAt := t.CreateAt }

/-- Go `append` on a possibly-nil slice: appending to nil allocates. -/
def goAppend (xs : Option (List todo)) (x : todo) : Option (List todo) :=
  some (xs.getD [] ++ [x])

/-- The fetchTodos loop: `var todoList []todo` (nil) then append per record. -/
def buildTodoList (ts : List todoModel) : Option (List todo) :=
  ts.foldl (fun acc t => goAppend acc (toView t)) none

/-- The ways a fetch can fail at the store: `collection.Find` error or
cursor `All` (decode) error, each carrying the driver's message. -/
inductive FetchErr where
  | findErr (msg : String)
  | decodeErr (msg : String)
deriving DecidableEq, Repr

/-- `fetchTodos` (GET /todo/): `e` injects the store failure, if any. -/
def fetchTodos (e : Option FetchErr) (store : Store) : HandlerOut :=
  match e with
  | some (FetchErr.findErr msg) =>
      { status := 500, body := RespBody.msgErr "Failed to fetch todo" msg,
        store := store, storeCalled := true }
  | some (FetchErr.decodeErr msg) =>
      { status := 500, body := RespBody.msgErr "Failed to decode todos" msg,
        store := store, storeCalled := true }
  | none =>
      { status := 200, body := RespBody.dataBody (buildTodoList store),
        store := store, storeCalled := true }

/-- `createTodos` (POST /todo/). `body` is the result of decoding the JSON
request body (`none` = decode error); `newId` is the handler-side
`primitive.NewObjectID()`; `now` is `time.Now()`; `insertFail`, when `some`,
makes `collection.InsertOne` fail with that message. -/
def createTodos (body : Option todo) (newId : ObjectID) (now : GoTime)
    (insertFail : Option String) (store : Store) : HandlerOut :=
  match body with
  | none =>
      { status := 400, body := RespBody.msgOnly "Invalid request payload",
        store := store, storeCalled := false }
  | some t =>
    if t.Title = "" then
      { status := 400, body := RespBody.msgOnly "Title field is required",
        store := store, storeCalled := false }
    else
      let tm : todoModel := { ID := newId, Title := t.Title, Completed := false, CreateAt := now }
      match insertFail with
      | some msg =>
          { status := 500, body := RespBody.msgErr "Failed to save todo" msg,
            store := store, storeCalled := true }
      | none =>
          { status := 200,
            body := RespBody.msgId "Todo successfully saved" (objectIDHex tm.ID),
            store := store ++ [tm], storeCalled := true }

/-- The record `createTodos` hands to `collection.InsertOne` (lines 126-137),
when the request passes validation: its ID field is already set by the
handler to the `primitive.NewObjectID()` value. -/
def createSubmitted (body : Option todo) (newId : ObjectID) (now : GoTime) :
    Option todoModel :=
  match body with
  | none => none
  | some t =>
    if t.Title = "" then none
    else some { ID := newId, Title := t.Title, Completed := false, CreateAt := now }

/-- `deleteTodo` (DELETE /todo/{id}). `idParam` is the raw chi URL parameter;
`delFail`, when `some`, makes `collection.DeleteOne` fail with that message. -/
def deleteTodo (idParam : String) (delFail : Option String) (store : Store) : HandlerOut :=
  let id := trimSpace idParam
  if ¬ (isValidObjectID id = true) then
    { status := 400, body := RespBody.msgOnly "Invalid ID", store := store, storeCalled := false }
  else
    let objectID := objectIDFromHex id
    match delFail with
    | some msg =>
        { status := 500, body := RespBody.msgErr "Failed to delete TODO" msg,
          store := store, storeCalled := true }
    | none =>
        let res := deleteOneById objectID store
        if res.2 = 0 then
          { status := 404, body := RespBody.msgOnly "Todo not found",
            store := res.1, storeCalled := true }
        else
          { status := 200, body := RespBody.msgOnly "Successfully deleted TODO",
            store := res.1, storeCalled := true }

/-- `updateTodo` (PUT /todo/{id}). `idParam` is the raw chi URL parameter;
`body` the decoded JSON body (`none` = decode error); `updFail`, when `some`,
makes `collection.UpdateOne` fail with that message. -/
def updateTodo (idParam : String) (body : Option todo)
    (updFail : Option String) (store : Store) : HandlerOut :=
  let id := trimSpace idParam
  if ¬ (isValidObjectID id = true) then
    { status := 400, body := RespBody.msgOnly "Invalid ID", store := store, storeCalled := false }
  else
    match body with
    | none =>
        { status := 400, body := RespBody.msgOnly "Invalid request payload",
          store := store, storeCalled := false }
    | some t =>
      if t.Title = "" then
        { status := 400, body := RespBody.msgOnly "Title field is required",
          store := store, storeCalled := false }
      else
        let objectID := objectIDFromHex id
        match updFail with
        | some msg =>
            { status := 500, body := RespBody.msgErr "Failed to update todo" msg,
              store := store, storeCalled := true }
        | none =>
            { status := 200, body := RespBody.msgOnly "Successfully updated TODO",
              store := updateOneById objectID t.Title t.Completed store, storeCalled := true }

/-! ## Helper lemmas -/

theorem foldl_goAppend (l : List todoModel) (acc : List todo) :
    l.foldl (fun a t => goAppend a (toView t)) (some acc) = some (acc ++ l.map toView) := by
  induction l generalizing acc with
  | nil => simp
  | cons x xs ih =>
    show List.foldl _ (goAppend (some acc) (toView x)) xs = _
    rw [show goAppend (some acc) (toView x) = some (acc ++ [toView x]) from rfl, ih]
    simp

theorem buildTodoList_ne_nil (l : List todoModel) (h : l ≠ []) :
    buildTodoList l = some (l.map toView) := by
  match l with
  | [] => exact absurd rfl h
  | x :: xs =>
    show (xs.foldl (fun a t => goAppend a (toView t)) (goAppend none (toView x))) = _
    rw [show goAppend none (toView x) = some [toView x] from rfl, foldl_goAppend]
    simp

theorem buildTodoList_getD (l : List todoModel) :
    (buildTodoList l).getD [] = l.map toView := by
  match l with
  | [] => rfl
  | x :: xs => rw [buildTodoList_ne_nil (x :: xs) (by simp)]; rfl

theorem deleteOneById_count_zero_iff (oid : ObjectID) (s : Store) :
    (deleteOneById oid s).2 = 0 ↔ ∀ r ∈ s, r.ID ≠ oid := by
  induction s with
  | nil => simp [deleteOneById]
  | cons t ts ih =>
    by_cases h : t.ID = oid
    · simp [deleteOneById, h]
    · simp [deleteOneById, h, ih]

theorem deleteOneById_store_of_zero (oid : ObjectID) (s : Store)
    (h : (deleteOneById oid s).2 = 0) : (deleteOneById oid s).1 = s := by
  induction s with
  | nil => rfl
  | cons t ts ih =>
    by_cases ht : t.ID = oid
    · simp [deleteOneById, ht] at h
    · simp only [deleteOneById, ht, if_false] at h ⊢
      simp [ih h]

theorem deleteOneById_subset (oid : ObjectID) (s : Store) :
    ∀ r ∈ (deleteOneById oid s).1, r ∈ s := by
  induction s with
  | nil => simp [deleteOneById]
  | cons t ts ih =>
    by_cases h : t.ID = oid
    · simp only [deleteOneById, h, if_true]
      intro r hr
      exact List.mem_cons_of_mem t hr
    · simp only [deleteOneById, h, if_false]
      intro r hr
      rcases List.mem_cons.mp hr with h1 | h2
      · exact h1 ▸ List.mem_cons_self t ts
      · exact List.mem_cons_of_mem t (ih r h2)

theorem deleteOneById_nodup (oid : ObjectID) (s : Store)
    (hnd : (s.map todoModel.ID).Nodup) (h : (deleteOneById oid s).2 ≠ 0) :
    ∀ r ∈ (deleteOneById oid s).1, r.ID ≠ oid := by
  induction s with
  | nil => simp [deleteOneById] at h
  | cons t ts ih =>
    simp only [List.map_cons, List.nodup_cons] at hnd
    by_cases ht : t.ID = oid
    · simp only [deleteOneById, ht, if_true]
      intro r hr hrid
      exact hnd.1 (ht ▸ hrid ▸ List.mem_map_of_mem todoModel.ID hr)
    · simp only [deleteOneById, ht, if_false] at h ⊢
      intro r hr
      rcases List.mem_cons.mp hr with h1 | h2
      · exact h1 ▸ ht
      · exact ih hnd.2 h r h2

theorem updateOneById_length (oid : ObjectID) (ttl : String) (cpl : Bool) (s : Store) :
    (updateOneById oid ttl cpl s).length = s.length := by
  induction s with
  | nil => rfl
  | cons t ts ih =>
    by_cases h : t.ID = oid
    · simp [updateOneById, h]
    · simp [updateOneById, h, ih]

theorem updateOneById_forall2 (oid : ObjectID) (ttl : String) (cpl : Bool) (s : Store) :
    List.Forall₂
      (fun r r2 => r2.ID = r.ID ∧ r2.CreateAt = r.CreateAt ∧ (r.ID ≠ oid → r2 = r))
      s (updateOneById oid ttl cpl s) := by
  induction s with
  | nil => exact List.Forall₂.nil
  | cons t ts ih =>
    by_cases h : t.ID = oid
    · have hstep : updateOneById oid ttl cpl (t :: ts) =
          { t with Title := ttl, Completed := cpl } :: ts := by
        simp [updateOneById, h]
      rw [hstep]
      refine List.Forall₂.cons ⟨rfl, rfl, fun hne => absurd h hne⟩ ?_
      exact (List.forall₂_same).mpr (fun r _ => ⟨rfl, rfl, fun _ => rfl⟩)
    · have hstep : updateOneById oid ttl cpl (t :: ts) =
          t :: updateOneById oid ttl cpl ts := by
        simp [updateOneById, h]
      rw [hstep]
      exact List.Forall₂.cons ⟨rfl, rfl, fun _ => rfl⟩ ih

theorem updateOneById_map_ID (oid : ObjectID) (ttl : String) (cpl : Bool) (s : Store) :
    (updateOneById oid ttl cpl s).map todoModel.ID = s.map todoModel.ID := by
  induction s with
  | nil => rfl
  | cons t ts ih =>
    by_cases h : t.ID = oid
    · simp [updateOneById, h]
    · simp [updateOneById, h, ih]

theorem dropWhile_head_false (p : Char → Bool) (l : List Char) (a : Char) (t : List Char)
    (h : l.dropWhile p = a :: t) : p a = false := by
  induction l with
  | nil => simp at h
  | cons x xs ih =>
    by_cases hx : p x = true
    · rw [List.dropWhile_cons, if_pos hx] at h
      exact ih h
    · rw [List.dropWhile_cons, if_neg hx] at h
      cases h
      simpa using hx

theorem dropWhile_trimChars (l : List Char) :
    (trimChars l).dropWhile isSpaceChar = trimChars l := by
  rcases hm : trimChars l with _ | ⟨a, t⟩
  · rfl
  · have hpre : trimChars l <+: l.dropWhile isSpaceChar :=
      List.rdropWhile_prefix isSpaceChar (l.dropWhile isSpaceChar)
    rw [hm] at hpre
    obtain ⟨rest, hrest⟩ := hpre
    have hd : l.dropWhile isSpaceChar = a :: (t ++ rest) := by
      rw [← hrest]; simp
    have hhead : isSpaceChar a = false :=
      dropWhile_head_false isSpaceChar l a (t ++ rest) hd
    simp [List.dropWhile_cons, hhead]

theorem trimChars_idem (l : List Char) : trimChars (trimChars l) = trimChars l := by
  show ((trimChars l).dropWhile isSpaceChar).rdropWhile isSpaceChar = trimChars l
  rw [dropWhile_trimChars]
  exact List.rdropWhile_idempotent _ _

theorem trimSpace_idem (s : String) : trimSpace (trimSpace s) = trimSpace s := by
  show String.mk (trimChars (trimChars s.toList)) = String.mk (trimChars s.toList)
  rw [trimChars_idem]

theorem deleteTodo_404_of_no_match (idParam : String) (s : Store)
    (hv : isValidObjectID (trimSpace idParam) = true)
    (hno : ∀ r ∈ s, r.ID ≠ objectIDFromHex (trimSpace idParam)) :
    (deleteTodo idParam none s).status = 404 := by
  have hz : (deleteOneById (objectIDFromHex (trimSpace idParam)) s).2 = 0 :=
    (deleteOneById_count_zero_iff _ _).mpr hno
  simp [deleteTodo, hv, hz]

/-! ## Claims -/

/-- Claim C1: for every create request whose body decodes with a non-empty
title, the identifier returned by Create, looked up in a subsequent List
response, retrieves a record with exactly the submitted title and
completed = false, regardless of the completed value in the request.
Freshness of the generated identifier (its hex form differing from every
stored record's) makes the lookup unambiguous. -/
theorem C1_create_then_list (t : todo) (newId : ObjectID) (now : GoTime) (store : Store)
    (ht : t.Title ≠ "")
    (hfresh : ∀ r ∈ store, objectIDHex r.ID ≠ objectIDHex newId) :
    (createTodos (some t) newId now none store).status = 200 ∧
    (createTodos (some t) newId now none store).body =
      RespBody.msgId "Todo successfully saved" (objectIDHex newId) ∧
    (fetchTodos none (createTodos (some t) newId now none store).store).status = 200 ∧
    ∃ views,
      (fetchTodos none (createTodos (some t) newId now none store).store).body =
        RespBody.dataBody (some views) ∧
      (∃ v ∈ views, v.ID = objectIDHex newId ∧ v.Title = t.Title ∧ v.Completed = false) ∧
      (∀ v ∈ views, v.ID = objectIDHex newId → v.Title = t.Title ∧ v.Completed = false) := by
  have hstore : (createTodos (some t) newId now none store).store =
      store ++ [{ ID := newId, Title := t.Title, Completed := false, CreateAt := now }] := by
    simp [createTodos, ht]
  refine ⟨by simp [createTodos, ht], by simp [createTodos, ht], rfl, ?_⟩
  refine ⟨(store ++
      [({ ID := newId, Title := t.Title, Completed := false,
          CreateAt := now } : todoModel)]).map toView, ?_, ?_, ?_⟩
  · show (fetchTodos none (createTodos (some t) newId now none store).store).body = _
    rw [hstore]
    show RespBody.dataBody (buildTodoList _) = _
    rw [buildTodoList_ne_nil _ (by simp)]
  · refine ⟨toView { ID := newId, Title := t.Title, Completed := false, CreateAt := now },
      ?_, rfl, rfl, rfl⟩
    simp
  · intro v hv hid
    rw [List.map_append] at hv
    rcases List.mem_append.mp hv with h1 | h2
    · obtain ⟨r, hr, hrv⟩ := List.mem_map.mp h1
      rw [← hrv] at hid
      exact absurd hid (hfresh r hr)
    · have hv2 : v = toView { ID := newId, Title := t.Title, Completed := false, CreateAt := now } := by
        simpa using h2
      subst hv2
      exact ⟨rfl, rfl⟩

theorem C1_witness :
    ("Buy milk" ≠ "" ∧
      ∀ r ∈ ([] : Store), objectIDHex r.ID ≠ objectIDHex (List.replicate 12 1)) ∧
    (createTodos (some { ID := "", Title := "Buy milk", Completed := true, CreatedAt := 0 })
        (List.replicate 12 1) 0 none []).status = 200 :=
  ⟨⟨by decide, by simp⟩,
    (C1_create_then_list { ID := "", Title := "Buy milk", Completed := true, CreatedAt := 0 }
      (List.replicate 12 1) 0 [] (by decide) (by simp)).1⟩

/-- Claim C2: an update with a syntactically valid (trimmed) path identifier,
a decodable body and a non-empty title returns 200 whether or not any stored
record has that identifier; delete, by contrast, reports 404 when nothing
matches. -/
theorem C2_update_200_regardless (idParam : String) (t : todo) (store : Store)
    (hid : isValidObjectID (trimSpace idParam) = true) (ht : t.Title ≠ "") :
    (updateTodo idParam (some t) none store).status = 200 ∧
    ((∀ r ∈ store, r.ID ≠ objectIDFromHex (trimSpace idParam)) →
      (deleteTodo idParam none store).status = 404) := by
  constructor
  · simp [updateTodo, hid, ht]
  · exact deleteTodo_404_of_no_match idParam store hid

theorem C2_witness :
    isValidObjectID (trimSpace "010101010101010101010101") = true ∧
    (updateTodo "010101010101010101010101"
      (some { ID := "", Title := "t", Completed := true, CreatedAt := 0 }) none []).status = 200 :=
  ⟨by decide,
    (C2_update_200_regardless "010101010101010101010101"
      { ID := "", Title := "t", Completed := true, CreatedAt := 0 } [] (by decide)
      (by decide)).1⟩

/-- Claim C3 counterexample: at a concrete valid create the record handed to
InsertOne already carries an identifier, set by the handler to the
NewObjectID value (not the zero ObjectID that the omitempty bson tag would
omit for the store to fill in), and the response's Todo ID is that same
handler-chosen value. -/
theorem C3_counterexample :
    (createSubmitted (some { ID := "", Title := "Buy milk", Completed := false, CreatedAt := 0 })
        (List.replicate 12 1) 0).map (fun tm => tm.ID) = some (List.replicate 12 1) ∧
    (List.replicate 12 1 : ObjectID) ≠ zeroObjectID ∧
    (createTodos (some { ID := "", Title := "Buy milk", Completed := false, CreatedAt := 0 })
        (List.replicate 12 1) 0 none []).body =
      RespBody.msgId "Todo successfully saved" (objectIDHex (List.replicate 12 1)) := by
  refine ⟨rfl, by decide, rfl⟩

/-- Claim C3 (amended): the record's identifier is generated by the handler
(via primitive.NewObjectID) before the insert and submitted with the record;
the store persists it unchanged, and it is immutable thereafter: updates
never change any record's identifier and deletes only remove whole records. -/
theorem C3_amended_handler_generates_id (t : todo) (newId : ObjectID) (now : GoTime)
    (store : Store) (ht : t.Title ≠ "") :
    createSubmitted (some t) newId now =
      some { ID := newId, Title := t.Title, Completed := false, CreateAt := now } ∧
    (createTodos (some t) newId now none store).store =
      store ++ [{ ID := newId, Title := t.Title, Completed := false, CreateAt := now }] ∧
    (∀ (s : Store) (idParam : String) (body : Option todo) (fail : Option String),
      ((updateTodo idParam body fail s).store).map todoModel.ID = s.map todoModel.ID) ∧
    (∀ (s : Store) (idParam : String) (fail : Option String),
      ∀ r ∈ (deleteTodo idParam fail s).store, r ∈ s) := by
  refine ⟨by simp [createSubmitted, ht], by simp [createTodos, ht], ?_, ?_⟩
  · intro s idParam body fail
    by_cases hv : isValidObjectID (trimSpace idParam) = true
    · cases body with
      | none => simp [updateTodo, hv]
      | some u =>
        by_cases hu : u.Title = ""
        · simp [updateTodo, hv, hu]
        · cases fail with
          | some m => simp [updateTodo, hv, hu]
          | none => simp [updateTodo, hv, hu, updateOneById_map_ID]
    · simp [updateTodo, hv]
  · intro s idParam fail r hr
    by_cases hv : isValidObjectID (trimSpace idParam) = true
    · cases fail with
      | some m => simpa [deleteTodo, hv] using hr
      | none =>
        have hr2 : r ∈ (deleteOneById (objectIDFromHex (trimSpace idParam)) s).1 := by
          by_cases hz : (deleteOneById (objectIDFromHex (trimSpace idParam)) s).2 = 0
          · simpa [deleteTodo, hv, hz] using hr
          · simpa [deleteTodo, hv, hz] using hr
        exact deleteOneById_subset _ s r hr2
    · simpa [deleteTodo, hv] using hr

theorem C3_witness :
    ("Buy milk" ≠ "") ∧
    createSubmitted (some { ID := "", Title := "Buy milk", Completed := true, CreatedAt := 0 })
        (List.replicate 12 1) 7 =
      some { ID := List.replicate 12 1, Title := "Buy milk", Completed := false, CreateAt := 7 } :=
  ⟨by decide,
    (C3_amended_handler_generates_id
      { ID := "", Title := "Buy milk", Completed := true, CreatedAt := 0 }
      (List.replicate 12 1) 7 [] (by decide)).1⟩

/-- Claim C4 counterexample: the delete status is not determined exactly by
the raw path-supplied identifier's syntactic validity: the raw identifier
`"010101010101010101010101 "` (trailing space, 25 characters) is not
structurally valid as supplied, yet Delete on an empty store returns 404,
not the 400 the claimed characterization requires for an invalid
identifier. -/
theorem C4_counterexample :
    isValidObjectID "010101010101010101010101 " = false ∧
    (deleteTodo "010101010101010101010101 " none []).status = 404 := by
  refine ⟨by decide, by decide⟩

/-- Claim C4 (amended): the delete status is exactly: 400 when the path
identifier, after trimming leading and trailing whitespace, is not
structurally valid, else 500 on store failure, else 404 when zero records
were removed, else 200; and, with unique identifiers in the store, a second
delete of the same identifier returns 404. -/
theorem C4_delete_status (idParam : String) (delFail : Option String) (store : Store)
    (hnd : (store.map todoModel.ID).Nodup) :
    ((deleteTodo idParam delFail store).status =
      if isValidObjectID (trimSpace idParam) = false then 400
      else if delFail.isSome then 500
      else if (deleteOneById (objectIDFromHex (trimSpace idParam)) store).2 = 0 then 404
      else 200) ∧
    ((deleteTodo idParam none store).status = 200 →
      (deleteTodo idParam none (deleteTodo idParam none store).store).status = 404) := by
  constructor
  · by_cases hv : isValidObjectID (trimSpace idParam) = true
    · cases delFail with
      | some m => simp [deleteTodo, hv]
      | none =>
        by_cases hz : (deleteOneById (objectIDFromHex (trimSpace idParam)) store).2 = 0
        · simp [deleteTodo, hv, hz]
        · simp [deleteTodo, hv, hz]
    · have hv2 : isValidObjectID (trimSpace idParam) = false := by
        revert hv; cases isValidObjectID (trimSpace idParam) <;> simp
      simp [deleteTodo, hv2]
  · intro h200
    by_cases hv : isValidObjectID (trimSpace idParam) = true
    · by_cases hz : (deleteOneById (objectIDFromHex (trimSpace idParam)) store).2 = 0
      · simp [deleteTodo, hv, hz] at h200
      · have hstore : (deleteTodo idParam none store).store =
            (deleteOneById (objectIDFromHex (trimSpace idParam)) store).1 := by
          simp [deleteTodo, hv, hz]
        have hno : ∀ r ∈ (deleteTodo idParam none store).store,
            r.ID ≠ objectIDFromHex (trimSpace idParam) := by
          rw [hstore]
          exact deleteOneById_nodup _ store hnd hz
        exact deleteTodo_404_of_no_match idParam _ hv hno
    · simp [deleteTodo, hv] at h200

theorem C4_witness :
    (([{ ID := List.replicate 12 1, Title := "x", Completed := false, CreateAt := 0 }] :
        Store).map todoModel.ID).Nodup ∧
    (deleteTodo "010101010101010101010101" none
      (deleteTodo "010101010101010101010101" none
        [{ ID := List.replicate 12 1, Title := "x", Completed := false,
           CreateAt := 0 }]).store).status = 404 :=
  ⟨by simp,
    (C4_delete_status "010101010101010101010101" none
      [{ ID := List.replicate 12 1, Title := "x", Completed := false, CreateAt := 0 }]
      (by simp)).2 (by decide)⟩

/-- Claim C5: a create whose body fails to decode, or decodes with an empty
title, returns 400, leaves the store unchanged and performs no store call. -/
theorem C5_create_reject (body : Option todo) (newId : ObjectID) (now : GoTime)
    (insertFail : Option String) (store : Store)
    (h : body = none ∨ ∃ t, body = some t ∧ t.Title = "") :
    (createTodos body newId now insertFail store).status = 400 ∧
    (createTodos body newId now insertFail store).store = store ∧
    (createTodos body newId now insertFail store).storeCalled = false := by
  rcases h with h | ⟨t, hb, ht⟩
  · subst h
    exact ⟨rfl, rfl, rfl⟩
  · subst hb
    refine ⟨?_, ?_, ?_⟩ <;> simp [createTodos, ht]

theorem C5_witness :
    ((none : Option todo) = none ∨ ∃ t, (none : Option todo) = some t ∧ t.Title = "") ∧
    (createTodos none (List.replicate 12 1) 0 none []).status = 400 :=
  ⟨Or.inl rfl, (C5_create_reject none (List.replicate 12 1) 0 none [] (Or.inl rfl)).1⟩

/-- Claim C6: a successful update (valid trimmed identifier, non-empty
title) returns 200 and relates the old and new stores pointwise: every
record keeps its identifier and its creation time, and every record whose
identifier differs from the targeted one is completely unchanged, so only
the matched record's title and completed flag can change. -/
theorem C6_update_frame (idParam : String) (t : todo) (store : Store)
    (hid : isValidObjectID (trimSpace idParam) = true) (ht : t.Title ≠ "") :
    (updateTodo idParam (some t) none store).status = 200 ∧
    (updateTodo idParam (some t) none store).store.length = store.length ∧
    List.Forall₂
      (fun r r2 => r2.ID = r.ID ∧ r2.CreateAt = r.CreateAt ∧
        (r.ID ≠ objectIDFromHex (trimSpace idParam) → r2 = r))
      store (updateTodo idParam (some t) none store).store := by
  have hstore : (updateTodo idParam (some t) none store).store =
      updateOneById (objectIDFromHex (trimSpace idParam)) t.Title t.Completed store := by
    simp [updateTodo, hid, ht]
  have hfa := updateOneById_forall2 (objectIDFromHex (trimSpace idParam)) t.Title
    t.Completed store
  refine ⟨by simp [updateTodo, hid, ht], ?_, ?_⟩
  · rw [hstore, updateOneById_length]
  · rw [hstore]
    exact hfa

theorem C6_witness :
    isValidObjectID (trimSpace "010101010101010101010101") = true ∧
    (updateTodo "010101010101010101010101"
      (some { ID := "", Title := "t2", Completed := true, CreatedAt := 0 }) none
      [{ ID := List.replicate 12 1, Title := "x", Completed := false,
         CreateAt := 9 }]).status = 200 :=
  ⟨by decide,
    (C6_update_frame "010101010101010101010101"
      { ID := "", Title := "t2", Completed := true, CreatedAt := 0 }
      [{ ID := List.replicate 12 1, Title := "x", Completed := false, CreateAt := 9 }]
      (by decide) (by decide)).1⟩

/-- Claim C7 counterexample: the raw path identifier
`" 010101010101010101010101"` is not structurally valid (25 characters, one
a space), yet Delete does not return 400: the handler trims it first, the
trimmed form passes validation, the store is contacted and the empty store
yields 404. -/
theorem C7_counterexample :
    isValidObjectID " 010101010101010101010101" = false ∧
    (deleteTodo " 010101010101010101010101" none []).status = 404 ∧
    (deleteTodo " 010101010101010101010101" none []).storeCalled = true := by
  refine ⟨by decide, by decide, by decide⟩

/-- Claim C7 (amended): for every Update or Delete request whose
path-supplied identifier, after trimming surrounding whitespace, is not a
structurally valid identifier, the handler returns 400 before performing
any store operation: no store call occurs and the store is unchanged. -/
theorem C7_amended_invalid_id_rejected_before_store (idParam : String) (body : Option todo)
    (dFail uFail : Option String) (store : Store)
    (h : isValidObjectID (trimSpace idParam) = false) :
    (deleteTodo idParam dFail store).status = 400 ∧
    (deleteTodo idParam dFail store).store = store ∧
    (deleteTodo idParam dFail store).storeCalled = false ∧
    (updateTodo idParam body uFail store).status = 400 ∧
    (updateTodo idParam body uFail store).store = store ∧
    (updateTodo idParam body uFail store).storeCalled = false := by
  refine ⟨?_, ?_, ?_, ?_, ?_, ?_⟩ <;> simp [deleteTodo, updateTodo, h]

theorem C7_witness :
    isValidObjectID (trimSpace "not-an-id") = false ∧
    (deleteTodo "not-an-id" none []).status = 400 :=
  ⟨by decide,
    (C7_amended_invalid_id_rejected_before_store "not-an-id" none none none []
      (by decide)).1⟩

/-- Claim C8: List returns 200 exactly when the store operations succeed,
and then its data field holds every stored record mapped to a view whose
identifier is the canonical hex rendering and whose title, completed flag
and creation time are copied unchanged; on a find or decode failure it
returns 500 with the corresponding error message. -/
theorem C8_fetch_maps_views (e : Option FetchErr) (store : Store) :
    ((fetchTodos e store).status = 200 ↔ e = none) ∧
    (e = none → ∃ d, (fetchTodos e store).body = RespBody.dataBody d ∧
      d.getD [] = store.map (fun r =>
        { ID := objectIDHex r.ID, Title := r.Title, Completed := r.Completed,
          CreatedAt := r.CreateAt })) ∧
    (∀ msg, e = some (FetchErr.findErr msg) →
      (fetchTodos e store).status = 500 ∧
      (fetchTodos e store).body = RespBody.msgErr "Failed to fetch todo" msg) ∧
    (∀ msg, e = some (FetchErr.decodeErr msg) →
      (fetchTodos e store).status = 500 ∧
      (fetchTodos e store).body = RespBody.msgErr "Failed to decode todos" msg) := by
  refine ⟨?_, ?_, ?_, ?_⟩
  · cases e with
    | none => simp [fetchTodos]
    | some err => cases err <;> simp [fetchTodos]
  · rintro rfl
    exact ⟨buildTodoList store, rfl, buildTodoList_getD store⟩
  · rintro msg rfl
    exact ⟨rfl, rfl⟩
  · rintro msg rfl
    exact ⟨rfl, rfl⟩

theorem C8_witness :
    (fetchTodos none
      [{ ID := List.replicate 12 1, Title := "x", Completed := false,
         CreateAt := 0 }]).status = 200 :=
  (C8_fetch_maps_views none
    [{ ID := List.replicate 12 1, Title := "x", Completed := false,
       CreateAt := 0 }]).1.mpr rfl

/-- Claim C9: on an empty collection List returns 200 and its data field is
the nil slice, serialized as JSON null, which differs from an empty array. -/
theorem C9_empty_list_null_data :
    (fetchTodos none []).status = 200 ∧
    (fetchTodos none []).body = RespBody.dataBody none ∧
    RespBody.dataBody (none : Option (List todo)) ≠ RespBody.dataBody (some []) := by
  refine ⟨rfl, rfl, by simp⟩

/-- Claim C10: Update and Delete trim leading and trailing whitespace from
the path identifier before validating it, so each behaves on a raw
identifier exactly as on its trimmed form, and an identifier that is valid
once surrounding whitespace is removed is never rejected with the 400
Invalid ID response. -/
theorem C10_trim_invariant (idParam : String) (body : Option todo)
    (dFail uFail : Option String) (store : Store) :
    deleteTodo idParam dFail store = deleteTodo (trimSpace idParam) dFail store ∧
    updateTodo idParam body uFail store = updateTodo (trimSpace idParam) body uFail store ∧
    (isValidObjectID (trimSpace idParam) = true →
      (deleteTodo idParam dFail store).body ≠ RespBody.msgOnly "Invalid ID" ∧
      (updateTodo idParam body uFail store).body ≠ RespBody.msgOnly "Invalid ID") := by
  refine ⟨?_, ?_, ?_⟩
  · simp only [deleteTodo, trimSpace_idem]
  · simp only [updateTodo, trimSpace_idem]
  · intro hv
    constructor
    · cases dFail with
      | some m => simp [deleteTodo, hv]
      | none =>
        by_cases hz : (deleteOneById (objectIDFromHex (trimSpace idParam)) store).2 = 0 <;>
          simp [deleteTodo, hv, hz]
    · cases body with
      | none => simp [updateTodo, hv]
      | some u =>
        by_cases hu : u.Title = ""
        · simp [updateTodo, hv, hu]
        · cases uFail with
          | some m => simp [updateTodo, hv, hu]
          | none => simp [updateTodo, hv, hu]

theorem C10_witness :
    isValidObjectID (trimSpace " 010101010101010101010101 ") = true ∧
    (deleteTodo " 010101010101010101010101 " none []).body ≠ RespBody.msgOnly "Invalid ID" :=
  ⟨by decide,
    ((C10_trim_invariant " 010101010101010101010101 " none none none []).2.2
      (by decide)).1⟩

end GoTodo
